import Mathlib

/-!
Shallow embedding of the `blockchain-query` gateway service
(`bitcoin_info.py`, `db/database.py`, `db/model/cache.py`, `server.py`)
and proofs about the claims of its specification.

JSON payloads are modelled by the inductive `J`; Python dict access,
truthiness and `len` are modelled by `dget`, `J.truthy` and `J.len?`.
Raised Python exceptions are modelled by the `Exc` error type threaded
through `Except`.
-/

namespace BlockchainQuery

/-- JSON-like values as produced by `response.json()` and stored in the
`value` JSON column of the cache table. -/
inductive J where
  | null
  | num (n : Int)
  | str (s : String)
  | arr (elems : List J)
  | obj (fields : List (String × J))

/-- Python truthiness of a JSON value (`if address_result:` in
`AddressService.get` / `TransactionService.get`). -/
def J.truthy : J → Bool
  | .null => false
  | .num n => n ≠ 0
  | .str s => s ≠ ""
  | .arr xs => !xs.isEmpty
  | .obj fs => !fs.isEmpty

/-- Lookup of a field in a JSON object's field list (Python dict access;
dict keys are unique, so the first match is the value). -/
def dget (fs : List (String × J)) (k : String) : Option J :=
  (fs.find? (fun p => p.1 == k)).map (·.2)

/-- Python `len(data)`, defined for strings, lists and dicts
(`if len(data) == 0:` in both services). -/
def J.len? : J → Option Nat
  | .str s => some s.length
  | .arr xs => some xs.length
  | .obj fs => some fs.length
  | _ => none

/-- Exceptions raised by the code paths modelled here.  `badRequest`,
`notFound`, `internalServerError` and `tooManyRequests` are the werkzeug
`HTTPException`s used in `bitcoin_info.py`; the remaining constructors are
non-HTTP Python/library exceptions that propagate to Flask's catch-all
handler. -/
inductive Exc where
  | badRequest (msg : String)
  | notFound (msg : String)
  | internalServerError (msg : String)
  | tooManyRequests
  | requestException
  | typeError
  | keyError
  | attributeError
  | integrityError
  deriving Repr, DecidableEq

/-- Python `data["k"]` on a JSON value: `KeyError` when the key is absent,
`TypeError` when the value is not a dict. -/
def jIndex (v : J) (k : String) : Except Exc J :=
  match v with
  | .obj fs =>
      match dget fs k with
      | some x => .ok x
      | none => .error .keyError
  | _ => .error .typeError

/-- HTTP status code each exception is surfaced with by `server.py`.  The
app registers handlers only for codes 400, 404 and 500 plus the catch-all
`@errorhandler(Exception)` (`handle_exception`), which returns
`error_response(e, 500)` unconditionally.  Flask resolves a raised
exception by first looking for a handler registered for its HTTP code and
then walking the exception class hierarchy in the generic scope: a
`BadRequest`/`NotFound`/`InternalServerError` finds its code handler, but a
rate-limit breach (`RateLimitExceeded`, a `TooManyRequests` with code 429)
finds no 429 handler and falls through to the `Exception` catch-all, so it
is surfaced as 500 — not 429 — like every non-HTTP exception. -/
def surfaceStatus : Exc → Nat
  | .badRequest _ => 400
  | .notFound _ => 404
  | .internalServerError _ => 500
  | _ => 500

/-! ### Cache store (`db/model/cache.py`, `db/database.py`) -/

/-- One row of the `cache` table.  The `id` surrogate key and the
timestamp columns are not modelled; the schema declares `key` as
`unique=True` (and no constraint on `type`), which is what
`commitAdded` below enforces. -/
structure Row where
  key : String
  type : String
  value : J

/-- The persisted state of the `cache` table, in insertion order. -/
abbrev CacheDB := List Row

/-- Direct reading of `session.query(Cache).filter_by(key=key, type=type).first()`. -/
def lookupRow (db : CacheDB) (key ty : String) : Option Row :=
  db.find? (fun r => r.key == key && r.type == ty)

/-- Outcome of running a `session_scope` block: the returned value or the
re-raised exception, the engine state afterwards, and whether the session
was committed, rolled back and closed. -/
structure ScopeResult (α : Type) where
  result : Except Exc α
  db : CacheDB
  committed : Bool
  rolledBack : Bool
  closed : Bool


/-- `session.commit()` flushing the rows added during the session: each
insert must respect the `unique=True` constraint on `key`, otherwise the
commit raises `IntegrityError`. -/
def commitAdded : CacheDB → List Row → Except Exc CacheDB
  | db, [] => .ok db
  | db, r :: rest =>
      if db.any (fun r0 => r0.key == r.key) then .error .integrityError
      else commitAdded (db ++ [r]) rest

/-- `CacheManager.session_scope`: run the body, commit on success,
roll back and re-raise on any failure (of the body or of the commit),
and close the session in every case.  The body receives the current
engine state and returns its result together with the rows it
`session.add`ed. -/
def session_scope {α : Type} (db : CacheDB)
    (body : CacheDB → Except Exc (α × List Row)) : ScopeResult α :=
  match body db with
  | .error e => ⟨.error e, db, false, true, true⟩
  | .ok (a, added) =>
      match commitAdded db added with
      | .ok db2 => ⟨.ok a, db2, true, false, true⟩
      | .error e => ⟨.error e, db, false, true, true⟩

/-- Body of `CacheManager.put`: `session.add(Cache(key=key, value=value, type=type))`.
The add itself never fails; the uniqueness check happens at commit. -/
def putBody (key : String) (value : J) (ty : String) :
    CacheDB → Except Exc (Unit × List Row) :=
  fun _ => .ok ((), [⟨key, ty, value⟩])

/-- `CacheManager.put`: insert a new row inside a `session_scope`. -/
def CacheManager.put (db : CacheDB) (key : String) (value : J) (ty : String) :
    ScopeResult Unit :=
  session_scope db (putBody key value ty)

/-- Body of `CacheManager.get`: query by `(key, type)`, return the row's
value or `None`; adds no rows. -/
def getBody (key ty : String) : CacheDB → Except Exc (Option J × List Row) :=
  fun db => .ok ((lookupRow db key ty).map (·.value), [])

/-- `CacheManager.get`: point lookup inside a `session_scope`. -/
def CacheManager.get (db : CacheDB) (key ty : String) : ScopeResult (Option J) :=
  session_scope db (getBody key ty)

/-! ### Rate limiter

The limiter object is `flask_limiter.Limiter`, an external dependency whose
internals are not part of this repository's sources; its admission behaviour
is modelled from the spec. -/

/-- One recorded admission for a (client, operation) pair at time `time`
(seconds). -/
structure Hit where
  client : String
  op : String
  time : Nat

/-- Modelled from the spec: the Rate Limiter's RateBudget state, per-client,
per-operation counters over a 60-second window (spec §3, §4.2).  Kept as the
list of admitted hits; the count of a window is recovered by counting. -/
abbrev LimiterState := List Hit

/-- Number of admitted hits of `(client, op)` falling in the same
fixed window (of length `window` seconds) as time `t`. -/
def hitCount (ls : LimiterState) (client op : String) (window t : Nat) : Nat :=
  ls.countP (fun h => h.client == client && h.op == op
    && (h.time / window == t / window))

/-- Modelled from the spec: `tryAcquire(clientIdentity, operation) →
Admitted | Rejected` — an atomic check-and-increment per (client, operation,
window); the counter effectively resets when the window elapses because
hits of earlier windows no longer count (spec §4.2). -/
def tryAcquire (ls : LimiterState) (client op : String) (quota window t : Nat) :
    Bool × LimiterState :=
  if hitCount ls client op window t < quota then (true, ⟨client, op, t⟩ :: ls)
  else (false, ls)

/-- The literal limit string of the `rate_limit` decorator on
`AddressService.get`. -/
def addressLimitString : String := "10 per minute"

/-- The literal limit string of the `rate_limit` decorator on
`TransactionService.get`. -/
def transactionLimitString : String := "5 per minute"

/-- Modelled from the spec: `flask_limiter`'s rate notation "N per minute"
denotes a quota of N admissions per 60-second window per client
(spec §3 RateBudget: `limit` 10/minute for address, 5/minute for
transaction lookups); given here on the two notations the program uses. -/
def parseLimit (s : String) : Option (Nat × Nat) :=
  if s == "10 per minute" then some (10, 60)
  else if s == "5 per minute" then some (5, 60)
  else none

/-! ### Upstream client (`Service.retrieve` under `handle_response`) -/

/-- Outcome of the outbound `requests.get(url, timeout=...)` call:
a 2xx response with a JSON body, a response whose `raise_for_status`
raises `HTTPError` (status ≥ 400), or a transport-level failure (timeout,
connection error) raising a `RequestException` that is not an `HTTPError`. -/
inductive HttpOutcome where
  | success (body : J)
  | errorStatus (code : Nat)
  | transport

/-- The network environment: what the upstream provider answers per URL. -/
abbrev Env := String → HttpOutcome

/-- `Service.retrieve` as wrapped by `handle_response`: `HTTPError`s are
mapped by status (400 → `BadRequest("Bad request")`, 404 →
`NotFound("Resource not found")`, anything else →
`InternalServerError("Internal server error")`); a transport-level
`RequestException` is not an `HTTPError`, so `handle_response` does not
catch it and it propagates unchanged. -/
def retrieve (env : Env) (url : String) : Except Exc J :=
  match env url with
  | .success body => .ok body
  | .errorStatus code =>
      if code == 400 then .error (.badRequest "Bad request")
      else if code == 404 then .error (.notFound "Resource not found")
      else .error (.internalServerError "Internal server error")
  | .transport => .error .requestException

/-! ### Response normalization (`TransactionService.get`) -/

/-- Python `d[k]` for a field list already known to be a dict. -/
def reqField (fs : List (String × J)) (k : String) : Except Exc J :=
  match dget fs k with
  | some v => .ok v
  | none => .error .keyError

/-- One item of the `inputs` comprehension:
`{"address": item.get("prev_out", {}).get("addr", "Unknown"),
  "value": item.get("prev_out", {}).get("value", 0)}`.
A missing `prev_out` defaults to `{}`, so both fields default; a present
non-dict `prev_out` has no `.get` attribute and raises. -/
def normalizeInput : J → Except Exc J
  | .obj fs =>
      match dget fs "prev_out" with
      | none => .ok (.obj [("address", .str "Unknown"), ("value", .num 0)])
      | some (.obj po) =>
          .ok (.obj [("address", (dget po "addr").getD (.str "Unknown")),
                     ("value", (dget po "value").getD (.num 0))])
      | some _ => .error .attributeError
  | _ => .error .attributeError

/-- One item of the `outputs` comprehension:
`{"address": item.get("addr", "Unknown"), "value": item.get("value", 0)}`. -/
def normalizeOutput : J → Except Exc J
  | .obj fs =>
      .ok (.obj [("address", (dget fs "addr").getD (.str "Unknown")),
                 ("value", (dget fs "value").getD (.num 0))])
  | _ => .error .attributeError

/-- `data.get(k, [])` followed by iteration: an absent key yields the empty
sequence; a present non-list value cannot be iterated as a sequence of
items (modelled as a `TypeError`). -/
def getItems (fs : List (String × J)) (k : String) : Except Exc (List J) :=
  match dget fs k with
  | none => .ok []
  | some (.arr xs) => .ok xs
  | some _ => .error .typeError

/-- A Python list comprehension `[f(item) for item in items]`: items are
transformed left to right and the first exception raised propagates. -/
def mapItems (f : J → Except Exc J) : List J → Except Exc (List J)
  | [] => .ok []
  | x :: xs =>
      match f x with
      | .error e => .error e
      | .ok y =>
          match mapItems f xs with
          | .error e => .error e
          | .ok ys => .ok (y :: ys)

/-- The `address_result` dict built by `AddressService.get`:
`{"address": address, "balance": data["final_balance"],
  "transaction_count": data["n_tx"]}` (with `data["n_tx"]` evaluated
first, as in the source). -/
def buildAddressResult (address : String) : J → Except Exc J
  | .obj fs =>
      match reqField fs "n_tx" with
      | .error e => .error e
      | .ok ntx =>
          match reqField fs "final_balance" with
          | .error e => .error e
          | .ok bal =>
              .ok (.obj [("address", .str address), ("balance", bal),
                         ("transaction_count", ntx)])
  | _ => .error .typeError

/-- The `tx_result` dict built by `TransactionService.get`, fields in source
order, with the two normalizing comprehensions over `data.get("inputs", [])`
and `data.get("out", [])`. -/
def buildTxResult : J → Except Exc J
  | .obj fs =>
      match reqField fs "hash" with
      | .error e => .error e
      | .ok h =>
      match reqField fs "fee" with
      | .error e => .error e
      | .ok fee =>
      match reqField fs "tx_index" with
      | .error e => .error e
      | .ok idx =>
      match reqField fs "time" with
      | .error e => .error e
      | .ok tm =>
      match getItems fs "inputs" with
      | .error e => .error e
      | .ok rawIns =>
      match mapItems normalizeInput rawIns with
      | .error e => .error e
      | .ok ins =>
      match getItems fs "out" with
      | .error e => .error e
      | .ok rawOuts =>
      match mapItems normalizeOutput rawOuts with
      | .error e => .error e
      | .ok outs =>
          .ok (.obj [("hash", h), ("fee", fee), ("transaction_index", idx),
                     ("block_time", tm), ("inputs", .arr ins),
                     ("outputs", .arr outs)])
  | _ => .error .typeError

/-! ### Lookup pipelines (`AddressService.get` / `TransactionService.get`) -/

/-- The cache-miss path of `AddressService.get`: fetch
`{endpoint}/rawaddr/{address}`, treat an empty payload as not found,
build the result, persist it (a failing `put` propagates), return it. -/
def addressMiss (env : Env) (endpoint : String) (db : CacheDB)
    (address : String) : Except Exc J × CacheDB :=
  match retrieve env (endpoint ++ "/rawaddr/" ++ address) with
  | .error e => (.error e, db)
  | .ok data =>
      match data.len? with
      | none => (.error .typeError, db)
      | some 0 => (.error (.notFound ("Transaction not found: " ++ address)), db)
      | some (_ + 1) =>
          match buildAddressResult address data with
          | .error e => (.error e, db)
          | .ok result =>
              let pr := CacheManager.put db address result "address"
              match pr.result with
              | .error e => (.error e, pr.db)
              | .ok _ => (.ok result, pr.db)

/-- The undecorated body of `AddressService.get`: empty-key guard, cache
probe (a hit requires a truthy cached value, since `if address_result:`
tests truthiness), then the miss path. -/
def addressGetBody (env : Env) (endpoint : String) (db : CacheDB)
    (address : String) : Except Exc J × CacheDB :=
  if address == "" then (.error (.badRequest "Missing address parameter"), db)
  else
    match (CacheManager.get db address "address").result with
    | .error e => (.error e, db)
    | .ok (some v) =>
        if v.truthy then (.ok v, db) else addressMiss env endpoint db address
    | .ok none => addressMiss env endpoint db address

/-- The cache-miss path of `TransactionService.get`: fetch
`{endpoint}/rawtx/{txhash}`, treat an empty payload as not found,
normalize, persist, return. -/
def txMiss (env : Env) (endpoint : String) (db : CacheDB)
    (txhash : String) : Except Exc J × CacheDB :=
  match retrieve env (endpoint ++ "/rawtx/" ++ txhash) with
  | .error e => (.error e, db)
  | .ok data =>
      match data.len? with
      | none => (.error .typeError, db)
      | some 0 => (.error (.notFound ("Transaction not found: " ++ txhash)), db)
      | some (_ + 1) =>
          match buildTxResult data with
          | .error e => (.error e, db)
          | .ok result =>
              let pr := CacheManager.put db txhash result "transaction"
              match pr.result with
              | .error e => (.error e, pr.db)
              | .ok _ => (.ok result, pr.db)

/-- The undecorated body of `TransactionService.get`. -/
def txGetBody (env : Env) (endpoint : String) (db : CacheDB)
    (txhash : String) : Except Exc J × CacheDB :=
  if txhash == "" then (.error (.badRequest "Missing txhash parameter"), db)
  else
    match (CacheManager.get db txhash "transaction").result with
    | .error e => (.error e, db)
    | .ok (some v) =>
        if v.truthy then (.ok v, db) else txMiss env endpoint db txhash
    | .ok none => txMiss env endpoint db txhash

/-- Mutable state a service instance closes over: the cache database and
the optional limiter (`None` in the unit tests, a `Limiter` in `server.py`). -/
structure SvcState where
  cache : CacheDB
  limiter : Option LimiterState

/-- The `rate_limit(limit_string)` decorator applied to a bound method call:
`decorated_function(self, *args)` receives the already-bound `self` plus the
caller's positional arguments `args`.  If `self._limiter` is set, the limiter
admits or rejects first (before the wrapped body runs at all) and on
admission calls `f(self, *args)`, so the body's parameters after `self` are
bound from `args` — exactly one argument is expected.  If the limiter is
absent, the fallback calls `f(*args, **kwargs)` WITHOUT `self`, so `f`'s
parameters `(self, address)` are bound from `args` alone: one argument
leaves `address` missing (`TypeError`); two arguments bind `self` to the
first string, where an empty second argument still hits the empty-key guard
(`BadRequest`) but any other goes on to access `._cache` on a string
(`AttributeError`). -/
def rateLimitedCall (op limitString : String)
    (body : CacheDB → String → Except Exc J × CacheDB)
    (st : SvcState) (client : String) (t : Nat) (args : List String) :
    Except Exc J × SvcState :=
  match st.limiter with
  | some ls =>
      let (quota, window) := (parseLimit limitString).getD (0, 60)
      match tryAcquire ls client op quota window t with
      | (false, ls2) => (.error .tooManyRequests, ⟨st.cache, some ls2⟩)
      | (true, ls2) =>
          match args with
          | [address] =>
              let (r, db2) := body st.cache address
              (r, ⟨db2, some ls2⟩)
          | _ => (.error .typeError, ⟨st.cache, some ls2⟩)
  | none =>
      match args with
      | [_, address] =>
          if address == "" then
            (.error (.badRequest ("Missing " ++ op ++ " parameter")), st)
          else (.error .attributeError, st)
      | _ => (.error .typeError, st)

/-- `AddressService.get` as callable from outside: the pipeline body wrapped
by `rate_limit("10 per minute")`. -/
def AddressService.get (env : Env) (endpoint : String) (st : SvcState)
    (client : String) (t : Nat) (args : List String) : Except Exc J × SvcState :=
  rateLimitedCall "address" addressLimitString (addressGetBody env endpoint)
    st client t args

/-- `TransactionService.get` as callable from outside: the pipeline body
wrapped by `rate_limit("5 per minute")`. -/
def TransactionService.get (env : Env) (endpoint : String) (st : SvcState)
    (client : String) (t : Nat) (args : List String) : Except Exc J × SvcState :=
  rateLimitedCall "txhash" transactionLimitString (txGetBody env endpoint)
    st client t args

/-- Repeated acquisition attempts by the same client for the same operation
at the same time, returning the final state and the list of decisions. -/
def acquireTimes (client op : String) (quota window t : Nat) :
    Nat → LimiterState → LimiterState × List Bool
  | 0, ls => (ls, [])
  | n + 1, ls =>
      let p := tryAcquire ls client op quota window t
      let q := acquireTimes client op quota window t n p.2
      (q.1, p.1 :: q.2)

/-- Keys are pairwise distinct, as the `unique=True` column constraint
guarantees for the persisted table. -/
def UniqueKeys (db : CacheDB) : Prop :=
  db.Pairwise (fun a b => a.key ≠ b.key)

/-! ### Helper lemmas -/

theorem parseLimit_address : parseLimit addressLimitString = some (10, 60) := by
  rfl

theorem parseLimit_transaction : parseLimit transactionLimitString = some (5, 60) := by
  rfl

theorem cacheGet_result (db : CacheDB) (k ty : String) :
    CacheManager.get db k ty
      = ⟨.ok ((lookupRow db k ty).map (·.value)), db, true, false, true⟩ := by
  rfl

theorem put_fresh (db : CacheDB) (k ty : String) (v : J)
    (h : db.any (fun r => r.key == k) = false) :
    CacheManager.put db k v ty = ⟨.ok (), db ++ [⟨k, ty, v⟩], true, false, true⟩ := by
  simp [CacheManager.put, session_scope, putBody, commitAdded, h]

theorem put_dup (db : CacheDB) (k ty : String) (v : J)
    (h : db.any (fun r => r.key == k) = true) :
    CacheManager.put db k v ty = ⟨.error .integrityError, db, false, true, true⟩ := by
  simp [CacheManager.put, session_scope, putBody, commitAdded, h]

theorem addressGet_granted (env : Env) (endpoint : String) (db : CacheDB)
    (ls : LimiterState) (client k : String) (t : Nat)
    (h : hitCount ls client "address" 60 t < 10) :
    AddressService.get env endpoint ⟨db, some ls⟩ client t [k]
      = ((addressGetBody env endpoint db k).1,
         ⟨(addressGetBody env endpoint db k).2, some (⟨client, "address", t⟩ :: ls)⟩) := by
  simp [AddressService.get, rateLimitedCall, parseLimit_address, tryAcquire, h]

theorem addressGet_rejected (env : Env) (endpoint : String) (db : CacheDB)
    (ls : LimiterState) (client : String) (t : Nat) (args : List String)
    (h : ¬ hitCount ls client "address" 60 t < 10) :
    AddressService.get env endpoint ⟨db, some ls⟩ client t args
      = (.error .tooManyRequests, ⟨db, some ls⟩) := by
  simp [AddressService.get, rateLimitedCall, parseLimit_address, tryAcquire, h]

theorem txGet_granted (env : Env) (endpoint : String) (db : CacheDB)
    (ls : LimiterState) (client k : String) (t : Nat)
    (h : hitCount ls client "txhash" 60 t < 5) :
    TransactionService.get env endpoint ⟨db, some ls⟩ client t [k]
      = ((txGetBody env endpoint db k).1,
         ⟨(txGetBody env endpoint db k).2, some (⟨client, "txhash", t⟩ :: ls)⟩) := by
  simp [TransactionService.get, rateLimitedCall, parseLimit_transaction, tryAcquire, h]

theorem txGet_rejected (env : Env) (endpoint : String) (db : CacheDB)
    (ls : LimiterState) (client : String) (t : Nat) (args : List String)
    (h : ¬ hitCount ls client "txhash" 60 t < 5) :
    TransactionService.get env endpoint ⟨db, some ls⟩ client t args
      = (.error .tooManyRequests, ⟨db, some ls⟩) := by
  simp [TransactionService.get, rateLimitedCall, parseLimit_transaction, tryAcquire, h]

theorem hitCount_nil (client op : String) (w t : Nat) :
    hitCount [] client op w t = 0 :=
  rfl

theorem hitCount_cons_same (ls : LimiterState) (client op : String) (w t : Nat) :
    hitCount (⟨client, op, t⟩ :: ls) client op w t
      = hitCount ls client op w t + 1 := by
  simp [hitCount, List.countP_cons]

theorem hitCount_replicate_append (client op : String) (w t : Nat)
    (m : Nat) (ls : LimiterState) :
    hitCount (List.replicate m ⟨client, op, t⟩ ++ ls) client op w t
      = m + hitCount ls client op w t := by
  induction m with
  | zero => simp
  | succ m ih =>
      rw [List.replicate_succ, List.cons_append, hitCount_cons_same, ih]
      omega

theorem acquireTimes_granted (client op : String) (quota w t : Nat) :
    ∀ (n : Nat) (ls : LimiterState), hitCount ls client op w t + n ≤ quota →
      acquireTimes client op quota w t n ls
        = (List.replicate n ⟨client, op, t⟩ ++ ls, List.replicate n true) := by
  intro n
  induction n with
  | zero => intro ls _; simp [acquireTimes]
  | succ n ih =>
      intro ls h
      have hlt : hitCount ls client op w t < quota := by omega
      have hstep : tryAcquire ls client op quota w t = (true, ⟨client, op, t⟩ :: ls) := by
        simp [tryAcquire, hlt]
      have hrec : acquireTimes client op quota w t n (⟨client, op, t⟩ :: ls)
          = (List.replicate n ⟨client, op, t⟩ ++ (⟨client, op, t⟩ :: ls),
             List.replicate n true) := by
        apply ih
        rw [hitCount_cons_same]
        omega
      simp only [acquireTimes, hstep, hrec]
      rw [Prod.mk.injEq]
      refine ⟨?_, by simp [List.replicate_succ]⟩
      rw [List.replicate_succ']
      simp

theorem hitCount_other_window (client op : String) (m t : Nat) :
    hitCount (List.replicate m ⟨client, op, t⟩) client op 60 (t + 60) = 0 := by
  have hw : t / 60 ≠ (t + 60) / 60 := by
    rw [Nat.add_div_right t (by norm_num)]
    omega
  induction m with
  | zero => simp [hitCount]
  | succ m ih =>
      rw [List.replicate_succ]
      simp only [hitCount, List.countP_cons] at ih ⊢
      rw [ih]
      simp [hw]

theorem mapItems_length (f : J → Except Exc J) :
    ∀ (xs ys : List J), mapItems f xs = .ok ys → ys.length = xs.length := by
  intro xs
  induction xs with
  | nil => intro ys h; cases h; rfl
  | cons x xs ih =>
      intro ys h
      simp only [mapItems] at h
      cases hx : f x with
      | error e => rw [hx] at h; cases h
      | ok y =>
          rw [hx] at h
          cases hxs : mapItems f xs with
          | error e => rw [hxs] at h; cases h
          | ok ys2 =>
              rw [hxs] at h
              cases h
              simp [ih ys2 hxs]

theorem mapItems_get (f : J → Except Exc J) :
    ∀ (xs ys : List J), mapItems f xs = .ok ys →
      ∀ (i : Nat) (hi : i < xs.length) (hi2 : i < ys.length),
        f (xs.get ⟨i, hi⟩) = .ok (ys.get ⟨i, hi2⟩) := by
  intro xs
  induction xs with
  | nil => intro ys h i hi; exact absurd hi (by simp)
  | cons x xs ih =>
      intro ys h i hi hi2
      simp only [mapItems] at h
      cases hx : f x with
      | error e => rw [hx] at h; cases h
      | ok y =>
          rw [hx] at h
          cases hxs : mapItems f xs with
          | error e => rw [hxs] at h; cases h
          | ok ys2 =>
              rw [hxs] at h
              cases h
              match i with
              | 0 => simpa using hx
              | j + 1 =>
                  exact ih ys2 hxs j (Nat.lt_of_succ_lt_succ hi)
                    (Nat.lt_of_succ_lt_succ hi2)

/-! ### Claims -/

/-- C10: when a service is constructed without a rate limiter
(`limiter=None`, as in the unit tests), the `rate_limit` fallback branch
calls the wrapped method without passing the service instance as its first
argument, so for every non-empty subject key the call fails with an
argument error (`TypeError`) instead of performing the lookup pipeline, and
the state is untouched. -/
theorem c10_fallback_drops_self (env : Env) (endpoint : String)
    (db : CacheDB) (client k : String) (t : Nat) (_hk : ¬ k = "") :
    AddressService.get env endpoint ⟨db, none⟩ client t [k]
      = (.error .typeError, ⟨db, none⟩) ∧
    TransactionService.get env endpoint ⟨db, none⟩ client t [k]
      = (.error .typeError, ⟨db, none⟩) :=
  ⟨rfl, rfl⟩

/-- C10 witness: concrete instance with a non-empty address. -/
theorem c10_fallback_drops_self_witness :
    ¬ "1A1z" = "" ∧
    (AddressService.get (fun _ => .transport) "https://blockchain.info"
        ⟨[], none⟩ "127.0.0.1" 0 ["1A1z"]
      = (.error .typeError, ⟨[], none⟩) ∧
    TransactionService.get (fun _ => .transport) "https://blockchain.info"
        ⟨[], none⟩ "127.0.0.1" 0 ["1A1z"]
      = (.error .typeError, ⟨[], none⟩)) :=
  ⟨by decide, c10_fallback_drops_self (fun _ => .transport)
    "https://blockchain.info" [] "127.0.0.1" "1A1z" 0 (by decide)⟩

/-- C4: the upstream fetch classifies HTTP 400 and 404 and maps every other
HTTP error status to InternalServerError, but a transport-level failure
(timeout, connection error) is NOT classified by `handle_response` — the
`RequestException` is not an `HTTPError`, so it propagates unclassified
(the repository's own test `test_address_service_get_request_error` expects
`InternalServerError` here); only the server's catch-all exception handler
still surfaces it as a 500. -/
theorem c4_transport_failure_unclassified :
    retrieve (fun _ => .transport) "https://blockchain.info/rawaddr/1A1z"
      = .error .requestException ∧
    (Except.error Exc.requestException : Except Exc J)
      ≠ .error (.internalServerError "Internal server error") ∧
    surfaceStatus .requestException = 500 ∧
    retrieve (fun _ => .errorStatus 400) "u" = .error (.badRequest "Bad request") ∧
    retrieve (fun _ => .errorStatus 404) "u" = .error (.notFound "Resource not found") ∧
    retrieve (fun _ => .errorStatus 503) "u"
      = .error (.internalServerError "Internal server error") ∧
    surfaceStatus (.badRequest "Bad request") = 400 ∧
    surfaceStatus (.notFound "Resource not found") = 404 ∧
    surfaceStatus (.internalServerError "Internal server error") = 500 :=
  ⟨rfl, fun h => absurd (Except.error.inj h) (by decide), rfl, rfl, rfl, rfl,
   rfl, rfl, rfl⟩

/-- C2 counterexample: with a row for key "k" already present,
`CacheManager.put` does not replace its value — the insert violates the
uniqueness constraint, the transaction rolls back, and the store is
unchanged. -/
theorem c2_counterexample :
    (CacheManager.put [⟨"k", "address", .num 1⟩] "k" (.num 2) "address").result
      = .error .integrityError ∧
    (CacheManager.put [⟨"k", "address", .num 1⟩] "k" (.num 2) "address").db
      = [⟨"k", "address", .num 1⟩] ∧
    (Except.error Exc.integrityError : Except Exc Unit) ≠ .ok () :=
  ⟨rfl, rfl, fun h => Except.noConfusion h⟩

/-- C2 as amended: `CacheManager.put` has insert-only semantics — when no
row with the same key exists (under any entryType) it appends a new row and
commits; when a row with that key already exists it fails with a uniqueness
violation (`IntegrityError`), rolls back and leaves the store unchanged; it
never replaces an existing value. -/
theorem c2_put_insert_only (db : CacheDB) (k ty : String) (v : J) :
    (db.any (fun r => r.key == k) = false →
      CacheManager.put db k v ty = ⟨.ok (), db ++ [⟨k, ty, v⟩], true, false, true⟩) ∧
    (db.any (fun r => r.key == k) = true →
      CacheManager.put db k v ty = ⟨.error .integrityError, db, false, true, true⟩) :=
  ⟨put_fresh db k ty v, put_dup db k ty v⟩

/-- C2 witness: a fresh key is appended; a duplicate key fails. -/
theorem c2_put_insert_only_witness :
    (([] : CacheDB).any (fun r => r.key == "k") = false ∧
      CacheManager.put [] "k" (.num 1) "address"
        = ⟨.ok (), [⟨"k", "address", .num 1⟩], true, false, true⟩) ∧
    (([⟨"k", "address", .num 1⟩] : CacheDB).any (fun r => r.key == "k") = true ∧
      CacheManager.put [⟨"k", "address", .num 1⟩] "k" (.num 2) "address"
        = ⟨.error .integrityError, [⟨"k", "address", .num 1⟩], false, true, true⟩) :=
  ⟨⟨rfl, (c2_put_insert_only [] "k" "address" (.num 1)).1 rfl⟩,
   ⟨rfl, (c2_put_insert_only [⟨"k", "address", .num 1⟩] "k" "address" (.num 2)).2 rfl⟩⟩

/-- C3 counterexample: the same string stored under type "address" cannot
also be stored under type "transaction" — the schema's uniqueness
constraint is on `key` alone, so the second insert fails instead of
coexisting. -/
theorem c3_counterexample :
    (CacheManager.put [] "k" (.num 1) "address").result = .ok () ∧
    (CacheManager.put [] "k" (.num 1) "address").db = [⟨"k", "address", .num 1⟩] ∧
    (CacheManager.put [⟨"k", "address", .num 1⟩] "k" (.num 2) "transaction").result
      = .error .integrityError ∧
    (CacheManager.put [⟨"k", "address", .num 1⟩] "k" (.num 2) "transaction").db
      = [⟨"k", "address", .num 1⟩] :=
  ⟨rfl, rfl, rfl, rfl⟩

/-- C3 as amended: the persisted schema enforces uniqueness on `key` alone,
not on the pair (key, type): starting from a store with pairwise-distinct
keys, `put` preserves that invariant (hence at most one entry per key and a
fortiori per (key, type) pair), and `put` of a key that already exists under
ANY type — in particular the same string under the other entity type —
fails with a uniqueness violation and leaves the store unchanged. -/
theorem c3_unique_key_only (db : CacheDB) (k ty : String) (v : J)
    (h : UniqueKeys db) :
    UniqueKeys (CacheManager.put db k v ty).db ∧
    (∀ r ∈ db, r.key = k →
      (CacheManager.put db k v ty).result = .error .integrityError ∧
      (CacheManager.put db k v ty).db = db) := by
  cases hany : db.any (fun r => r.key == k) with
  | true =>
      rw [put_dup db k ty v hany]
      exact ⟨h, fun r _ _ => ⟨rfl, rfl⟩⟩
  | false =>
      rw [put_fresh db k ty v hany]
      have hfresh : ∀ r ∈ db, r.key ≠ k := by
        intro r hr
        have := List.any_eq_false.mp hany r hr
        simpa using this
      constructor
      · refine List.pairwise_append.mpr ⟨h, List.pairwise_singleton _ _, ?_⟩
        intro a ha b hb
        rw [List.mem_singleton.mp hb]
        exact hfresh a ha
      · intro r hr hrk
        exact absurd hrk (hfresh r hr)

/-- C3 witness: inserting two distinct keys keeps keys unique, and
re-inserting key "a" under the other type fails, store unchanged. -/
theorem c3_unique_key_only_witness :
    UniqueKeys [⟨"a", "address", .num 1⟩] ∧
    (UniqueKeys (CacheManager.put [⟨"a", "address", .num 1⟩] "a" (.num 2) "transaction").db ∧
     (∀ r ∈ ([⟨"a", "address", .num 1⟩] : CacheDB), r.key = "a" →
        (CacheManager.put [⟨"a", "address", .num 1⟩] "a" (.num 2) "transaction").result
          = .error .integrityError ∧
        (CacheManager.put [⟨"a", "address", .num 1⟩] "a" (.num 2) "transaction").db
          = [⟨"a", "address", .num 1⟩])) := by
  have hu : UniqueKeys [(⟨"a", "address", .num 1⟩ : Row)] :=
    List.pairwise_singleton _ _
  exact ⟨hu, c3_unique_key_only [⟨"a", "address", .num 1⟩] "a" "transaction" (.num 2) hu⟩

/-- C1 counterexample: address "1A1z" was previously stored via `put`, yet
with the client's budget exhausted the lookup is rejected with
`TooManyRequests` instead of returning the stored value — the limiter runs
before the cache is checked. -/
theorem c1_counterexample :
    (CacheManager.put [] "1A1z" (.obj [("balance", .num 7)]) "address").db
      = [⟨"1A1z", "address", .obj [("balance", .num 7)]⟩] ∧
    (AddressService.get (fun _ => .transport) "E"
        ⟨[⟨"1A1z", "address", .obj [("balance", .num 7)]⟩],
         some (List.replicate 10 ⟨"c", "address", 0⟩)⟩ "c" 0 ["1A1z"]).1
      = .error .tooManyRequests ∧
    (Except.error Exc.tooManyRequests : Except Exc J)
      ≠ .ok (.obj [("balance", .num 7)]) := by
  refine ⟨rfl, ?_, fun h => Except.noConfusion h⟩
  have h10 : ¬ hitCount (List.replicate 10 ⟨"c", "address", 0⟩) "c" "address" 60 0 < 10 := by
    decide
  rw [addressGet_rejected (fun _ => .transport) "E"
    [⟨"1A1z", "address", .obj [("balance", .num 7)]⟩]
    (List.replicate 10 ⟨"c", "address", 0⟩) "c" 0 ["1A1z"] h10]

/-- C1 as amended: a lookup for a subject stored in the cache (with a
truthy value) returns the stored value without invoking the Upstream Client
(the result does not depend on the environment) and without writing the
cache — but only when the rate limiter admits the call: the limiter is
consulted on every call, before the cache is checked, a cache hit records
an admission (consuming budget), and under rate-limit exhaustion the lookup
is rejected with `TooManyRequests` even for cached subjects. -/
theorem c1_cache_hit_after_admission (env : Env) (endpoint : String)
    (db : CacheDB) (ls : LimiterState) (client : String) (t : Nat)
    (ka kt : String) (ra rt : Row)
    (hka : ¬ ka = "") (hkt : ¬ kt = "")
    (hrowa : lookupRow db ka "address" = some ra) (hva : ra.value.truthy = true)
    (hrowt : lookupRow db kt "transaction" = some rt) (hvt : rt.value.truthy = true) :
    (hitCount ls client "address" 60 t < 10 →
      AddressService.get env endpoint ⟨db, some ls⟩ client t [ka]
        = (.ok ra.value, ⟨db, some (⟨client, "address", t⟩ :: ls)⟩)) ∧
    (¬ hitCount ls client "address" 60 t < 10 →
      AddressService.get env endpoint ⟨db, some ls⟩ client t [ka]
        = (.error .tooManyRequests, ⟨db, some ls⟩)) ∧
    (hitCount ls client "txhash" 60 t < 5 →
      TransactionService.get env endpoint ⟨db, some ls⟩ client t [kt]
        = (.ok rt.value, ⟨db, some (⟨client, "txhash", t⟩ :: ls)⟩)) ∧
    (¬ hitCount ls client "txhash" 60 t < 5 →
      TransactionService.get env endpoint ⟨db, some ls⟩ client t [kt]
        = (.error .tooManyRequests, ⟨db, some ls⟩)) := by
  refine ⟨fun h => ?_, fun h => addressGet_rejected env endpoint db ls client t [ka] h,
          fun h => ?_, fun h => txGet_rejected env endpoint db ls client t [kt] h⟩
  · rw [addressGet_granted env endpoint db ls client ka t h]
    have hbody : addressGetBody env endpoint db ka = (.ok ra.value, db) := by
      simp [addressGetBody, cacheGet_result, hrowa, hva, hka]
    rw [hbody]
  · rw [txGet_granted env endpoint db ls client kt t h]
    have hbody : txGetBody env endpoint db kt = (.ok rt.value, db) := by
      simp [txGetBody, cacheGet_result, hrowt, hvt, hkt]
    rw [hbody]

/-- C1 witness: a store holding both a cached address and a cached
transaction, with a fresh limiter. -/
theorem c1_cache_hit_after_admission_witness :
    (¬ "a1" = "" ∧ ¬ "t1" = "" ∧
     lookupRow [⟨"a1", "address", .num 3⟩, ⟨"t1", "transaction", .num 4⟩]
       "a1" "address" = some ⟨"a1", "address", .num 3⟩ ∧
     (J.num 3).truthy = true ∧
     lookupRow [⟨"a1", "address", .num 3⟩, ⟨"t1", "transaction", .num 4⟩]
       "t1" "transaction" = some ⟨"t1", "transaction", .num 4⟩ ∧
     (J.num 4).truthy = true) ∧
    ((hitCount [] "c" "address" 60 0 < 10 →
      AddressService.get (fun _ => .transport) "E"
          ⟨[⟨"a1", "address", .num 3⟩, ⟨"t1", "transaction", .num 4⟩], some []⟩
          "c" 0 ["a1"]
        = (.ok (.num 3),
           ⟨[⟨"a1", "address", .num 3⟩, ⟨"t1", "transaction", .num 4⟩],
            some [⟨"c", "address", 0⟩]⟩)) ∧
     (¬ hitCount [] "c" "address" 60 0 < 10 →
      AddressService.get (fun _ => .transport) "E"
          ⟨[⟨"a1", "address", .num 3⟩, ⟨"t1", "transaction", .num 4⟩], some []⟩
          "c" 0 ["a1"]
        = (.error .tooManyRequests,
           ⟨[⟨"a1", "address", .num 3⟩, ⟨"t1", "transaction", .num 4⟩], some []⟩)) ∧
     (hitCount [] "c" "txhash" 60 0 < 5 →
      TransactionService.get (fun _ => .transport) "E"
          ⟨[⟨"a1", "address", .num 3⟩, ⟨"t1", "transaction", .num 4⟩], some []⟩
          "c" 0 ["t1"]
        = (.ok (.num 4),
           ⟨[⟨"a1", "address", .num 3⟩, ⟨"t1", "transaction", .num 4⟩],
            some [⟨"c", "txhash", 0⟩]⟩)) ∧
     (¬ hitCount [] "c" "txhash" 60 0 < 5 →
      TransactionService.get (fun _ => .transport) "E"
          ⟨[⟨"a1", "address", .num 3⟩, ⟨"t1", "transaction", .num 4⟩], some []⟩
          "c" 0 ["t1"]
        = (.error .tooManyRequests,
           ⟨[⟨"a1", "address", .num 3⟩, ⟨"t1", "transaction", .num 4⟩], some []⟩))) :=
  ⟨⟨by decide, by decide, rfl, rfl, rfl, rfl⟩,
   c1_cache_hit_after_admission (fun _ => .transport) "E"
     [⟨"a1", "address", .num 3⟩, ⟨"t1", "transaction", .num 4⟩] [] "c" 0
     "a1" "t1" ⟨"a1", "address", .num 3⟩ ⟨"t1", "transaction", .num 4⟩
     (by decide) (by decide) rfl rfl rfl rfl⟩

/-- C5 counterexample: a lookup with an empty subject key and an exhausted
limiter is rejected with `TooManyRequests`, not `BadRequest`; and even with
budget available, the empty-key lookup records an admission in the limiter
state — the rate limiter IS consulted. -/
theorem c5_counterexample :
    (AddressService.get (fun _ => .transport) "E"
        ⟨[], some (List.replicate 10 ⟨"c", "address", 0⟩)⟩ "c" 0 [""]).1
      = .error .tooManyRequests ∧
    (Except.error Exc.tooManyRequests : Except Exc J)
      ≠ .error (.badRequest "Missing address parameter") ∧
    (AddressService.get (fun _ => .transport) "E" ⟨[], some []⟩ "c" 0 [""]).2.limiter
      = some [⟨"c", "address", 0⟩] := by
  refine ⟨?_, fun h => absurd (Except.error.inj h) (by decide), rfl⟩
  have h10 : ¬ hitCount (List.replicate 10 ⟨"c", "address", 0⟩) "c" "address" 60 0 < 10 := by
    decide
  rw [addressGet_rejected (fun _ => .transport) "E" []
    (List.replicate 10 ⟨"c", "address", 0⟩) "c" 0 [""] h10]

/-- C5 as amended: with a rate limiter configured, a lookup with an empty
subject key first consults the limiter (recording an admission); when
admitted it returns `BadRequest` without any upstream call and without
touching the cache state; when the budget is exhausted it is rejected with
`TooManyRequests` instead. -/
theorem c5_empty_key_after_admission (env : Env) (endpoint : String)
    (db : CacheDB) (ls : LimiterState) (client : String) (t : Nat) :
    (hitCount ls client "address" 60 t < 10 →
      AddressService.get env endpoint ⟨db, some ls⟩ client t [""]
        = (.error (.badRequest "Missing address parameter"),
           ⟨db, some (⟨client, "address", t⟩ :: ls)⟩)) ∧
    (¬ hitCount ls client "address" 60 t < 10 →
      AddressService.get env endpoint ⟨db, some ls⟩ client t [""]
        = (.error .tooManyRequests, ⟨db, some ls⟩)) ∧
    (hitCount ls client "txhash" 60 t < 5 →
      TransactionService.get env endpoint ⟨db, some ls⟩ client t [""]
        = (.error (.badRequest "Missing txhash parameter"),
           ⟨db, some (⟨client, "txhash", t⟩ :: ls)⟩)) ∧
    (¬ hitCount ls client "txhash" 60 t < 5 →
      TransactionService.get env endpoint ⟨db, some ls⟩ client t [""]
        = (.error .tooManyRequests, ⟨db, some ls⟩)) := by
  refine ⟨fun h => ?_, fun h => addressGet_rejected env endpoint db ls client t [""] h,
          fun h => ?_, fun h => txGet_rejected env endpoint db ls client t [""] h⟩
  · rw [addressGet_granted env endpoint db ls client "" t h]
    rfl
  · rw [txGet_granted env endpoint db ls client "" t h]
    rfl

/-- C5 witness: empty-key lookups against a fresh limiter. -/
theorem c5_empty_key_after_admission_witness :
    (hitCount [] "c" "address" 60 0 < 10 →
      AddressService.get (fun _ => .transport) "E" ⟨[], some []⟩ "c" 0 [""]
        = (.error (.badRequest "Missing address parameter"),
           ⟨[], some [⟨"c", "address", 0⟩]⟩)) ∧
    (¬ hitCount [] "c" "address" 60 0 < 10 →
      AddressService.get (fun _ => .transport) "E" ⟨[], some []⟩ "c" 0 [""]
        = (.error .tooManyRequests, ⟨[], some []⟩)) ∧
    (hitCount [] "c" "txhash" 60 0 < 5 →
      TransactionService.get (fun _ => .transport) "E" ⟨[], some []⟩ "c" 0 [""]
        = (.error (.badRequest "Missing txhash parameter"),
           ⟨[], some [⟨"c", "txhash", 0⟩]⟩)) ∧
    (¬ hitCount [] "c" "txhash" 60 0 < 5 →
      TransactionService.get (fun _ => .transport) "E" ⟨[], some []⟩ "c" 0 [""]
        = (.error .tooManyRequests, ⟨[], some []⟩)) :=
  c5_empty_key_after_admission (fun _ => .transport) "E" [] [] "c" 0

/-- C6: when the upstream fetch succeeds but the payload is empty
(`len(data) == 0`), the lookup fails with `NotFound` and the cache state is
unchanged, for both the address and the transaction service. -/
theorem c6_empty_payload_not_found (env : Env) (endpoint : String)
    (db : CacheDB) (ls : LimiterState) (client k : String) (t : Nat) (data : J)
    (hk : ¬ k = "") (hlen : data.len? = some 0) :
    (lookupRow db k "address" = none →
     hitCount ls client "address" 60 t < 10 →
     env (endpoint ++ "/rawaddr/" ++ k) = .success data →
     AddressService.get env endpoint ⟨db, some ls⟩ client t [k]
       = (.error (.notFound ("Transaction not found: " ++ k)),
          ⟨db, some (⟨client, "address", t⟩ :: ls)⟩)) ∧
    (lookupRow db k "transaction" = none →
     hitCount ls client "txhash" 60 t < 5 →
     env (endpoint ++ "/rawtx/" ++ k) = .success data →
     TransactionService.get env endpoint ⟨db, some ls⟩ client t [k]
       = (.error (.notFound ("Transaction not found: " ++ k)),
          ⟨db, some (⟨client, "txhash", t⟩ :: ls)⟩)) := by
  constructor
  · intro hmiss hadm henv
    rw [addressGet_granted env endpoint db ls client k t hadm]
    have hbody : addressGetBody env endpoint db k
        = (.error (.notFound ("Transaction not found: " ++ k)), db) := by
      simp [addressGetBody, cacheGet_result, hmiss, hk, addressMiss, retrieve,
        henv, hlen]
    rw [hbody]
  · intro hmiss hadm henv
    rw [txGet_granted env endpoint db ls client k t hadm]
    have hbody : txGetBody env endpoint db k
        = (.error (.notFound ("Transaction not found: " ++ k)), db) := by
      simp [txGetBody, cacheGet_result, hmiss, hk, txMiss, retrieve, henv, hlen]
    rw [hbody]

/-- C6 witness: upstream answers `{}` for hash "deadbeef" on a fresh state. -/
theorem c6_empty_payload_not_found_witness :
    (¬ "deadbeef" = "" ∧ (J.obj []).len? = some 0) ∧
    ((lookupRow [] "deadbeef" "address" = none →
      hitCount [] "c" "address" 60 0 < 10 →
      (fun _ => HttpOutcome.success (J.obj [])) ("E" ++ "/rawaddr/" ++ "deadbeef")
        = .success (.obj []) →
      AddressService.get (fun _ => .success (.obj [])) "E" ⟨[], some []⟩ "c" 0 ["deadbeef"]
        = (.error (.notFound ("Transaction not found: " ++ "deadbeef")),
           ⟨[], some [⟨"c", "address", 0⟩]⟩)) ∧
     (lookupRow [] "deadbeef" "transaction" = none →
      hitCount [] "c" "txhash" 60 0 < 5 →
      (fun _ => HttpOutcome.success (J.obj [])) ("E" ++ "/rawtx/" ++ "deadbeef")
        = .success (.obj []) →
      TransactionService.get (fun _ => .success (.obj [])) "E" ⟨[], some []⟩ "c" 0 ["deadbeef"]
        = (.error (.notFound ("Transaction not found: " ++ "deadbeef")),
           ⟨[], some [⟨"c", "txhash", 0⟩]⟩))) :=
  ⟨⟨by decide, rfl⟩,
   c6_empty_payload_not_found (fun _ => .success (.obj [])) "E" [] [] "c"
     "deadbeef" 0 (.obj []) (by decide) rfl⟩

/-- C7 counterexample: an input item whose previous output lacks the
address but carries value 7 normalizes to ("Unknown", 7), and an output
item lacking the address but carrying value 5 normalizes to ("Unknown", 5)
— not to value 0 as the claim states. -/
theorem c7_counterexample :
    buildTxResult (.obj [("hash", .str "h"), ("fee", .num 1),
        ("tx_index", .num 2), ("time", .num 3),
        ("inputs", .arr [.obj [("prev_out", .obj [("value", .num 7)])]]),
        ("out", .arr [.obj [("value", .num 5)]])])
      = .ok (.obj [("hash", .str "h"), ("fee", .num 1),
          ("transaction_index", .num 2), ("block_time", .num 3),
          ("inputs", .arr [.obj [("address", .str "Unknown"), ("value", .num 7)]]),
          ("outputs", .arr [.obj [("address", .str "Unknown"), ("value", .num 5)]])]) ∧
    (J.num 7) ≠ (J.num 0) ∧ (J.num 5) ≠ (J.num 0) := by
  refine ⟨rfl, ?_, ?_⟩
  · intro hcontra
    injection hcontra with hn
    omega
  · intro hcontra
    injection hcontra with hn
    omega

/-- C7 as amended: the address and value defaults are substituted
independently — an input item with no previous-output structure normalizes
to ("Unknown", 0); an input item whose previous output lacks the address
keeps the previous output's value (defaulting to 0 only when that value is
itself absent) under address "Unknown"; an output item lacking the address
gets "Unknown" while its value field is kept (defaulting to 0 only when
absent) — and the normalized inputs/outputs sequences preserve the raw
order and length exactly. -/
theorem c7_normalization (fs : List (String × J)) (hv fee idx tm : J)
    (rawIns rawOuts ins outs : List J)
    (hh : dget fs "hash" = some hv) (hf : dget fs "fee" = some fee)
    (hx : dget fs "tx_index" = some idx) (ht : dget fs "time" = some tm)
    (hri : getItems fs "inputs" = .ok rawIns)
    (hro : getItems fs "out" = .ok rawOuts)
    (hins : mapItems normalizeInput rawIns = .ok ins)
    (houts : mapItems normalizeOutput rawOuts = .ok outs) :
    buildTxResult (.obj fs)
      = .ok (.obj [("hash", hv), ("fee", fee), ("transaction_index", idx),
                   ("block_time", tm), ("inputs", .arr ins),
                   ("outputs", .arr outs)]) ∧
    ins.length = rawIns.length ∧ outs.length = rawOuts.length ∧
    (∀ (i : Nat) (hi : i < rawIns.length) (hi2 : i < ins.length),
      normalizeInput (rawIns.get ⟨i, hi⟩) = .ok (ins.get ⟨i, hi2⟩)) ∧
    (∀ (i : Nat) (hi : i < rawOuts.length) (hi2 : i < outs.length),
      normalizeOutput (rawOuts.get ⟨i, hi⟩) = .ok (outs.get ⟨i, hi2⟩)) ∧
    (∀ gs : List (String × J), dget gs "prev_out" = none →
      normalizeInput (.obj gs)
        = .ok (.obj [("address", .str "Unknown"), ("value", .num 0)])) ∧
    (∀ (gs po : List (String × J)),
      dget gs "prev_out" = some (.obj po) → dget po "addr" = none →
      normalizeInput (.obj gs)
        = .ok (.obj [("address", .str "Unknown"),
                     ("value", (dget po "value").getD (.num 0))])) ∧
    (∀ gs : List (String × J), dget gs "addr" = none →
      normalizeOutput (.obj gs)
        = .ok (.obj [("address", .str "Unknown"),
                     ("value", (dget gs "value").getD (.num 0))])) := by
  refine ⟨?_, mapItems_length normalizeInput rawIns ins hins,
          mapItems_length normalizeOutput rawOuts outs houts,
          mapItems_get normalizeInput rawIns ins hins,
          mapItems_get normalizeOutput rawOuts outs houts, ?_, ?_, ?_⟩
  · simp [buildTxResult, reqField, hh, hf, hx, ht, hri, hro, hins, houts]
  · intro gs hgs
    simp [normalizeInput, hgs]
  · intro gs po hpo haddr
    simp [normalizeInput, hpo, haddr]
  · intro gs hodd
    simp [normalizeOutput, hodd]

/-- C7 witness: the payload of the counterexample, with its hypotheses
evaluated and the pipeline conclusion extracted. -/
theorem c7_normalization_witness :
    (dget [("hash", J.str "h"), ("fee", J.num 1), ("tx_index", J.num 2),
        ("time", J.num 3),
        ("inputs", J.arr [.obj [("prev_out", .obj [("value", .num 7)])]]),
        ("out", J.arr [.obj [("value", .num 5)]])] "hash" = some (.str "h") ∧
     mapItems normalizeInput [.obj [("prev_out", .obj [("value", .num 7)])]]
       = .ok [.obj [("address", .str "Unknown"), ("value", .num 7)]] ∧
     mapItems normalizeOutput [.obj [("value", .num 5)]]
       = .ok [.obj [("address", .str "Unknown"), ("value", .num 5)]]) ∧
    buildTxResult (.obj [("hash", .str "h"), ("fee", .num 1),
        ("tx_index", .num 2), ("time", .num 3),
        ("inputs", .arr [.obj [("prev_out", .obj [("value", .num 7)])]]),
        ("out", .arr [.obj [("value", .num 5)]])])
      = .ok (.obj [("hash", .str "h"), ("fee", .num 1),
          ("transaction_index", .num 2), ("block_time", .num 3),
          ("inputs", .arr [.obj [("address", .str "Unknown"), ("value", .num 7)]]),
          ("outputs", .arr [.obj [("address", .str "Unknown"), ("value", .num 5)]])]) :=
  ⟨⟨rfl, rfl, rfl⟩,
   (c7_normalization
     [("hash", .str "h"), ("fee", .num 1), ("tx_index", .num 2), ("time", .num 3),
      ("inputs", .arr [.obj [("prev_out", .obj [("value", .num 7)])]]),
      ("out", .arr [.obj [("value", .num 5)]])]
     (.str "h") (.num 1) (.num 2) (.num 3)
     [.obj [("prev_out", .obj [("value", .num 7)])]] [.obj [("value", .num 5)]]
     [.obj [("address", .str "Unknown"), ("value", .num 7)]]
     [.obj [("address", .str "Unknown"), ("value", .num 5)]]
     rfl rfl rfl rfl rfl rfl rfl rfl).1⟩

/-- C8: `CacheManager.put` and `CacheManager.get` both run inside
`session_scope`, and the scope commits on success, rolls back and re-raises
on any failure raised within it (by the body or by the commit), leaving the
engine state unchanged on failure, and closes the session in all cases. -/
theorem c8_scoped_transactions (db : CacheDB) (k ty : String) (v : J) :
    CacheManager.put db k v ty = session_scope db (putBody k v ty) ∧
    CacheManager.get db k ty = session_scope db (getBody k ty) ∧
    (∀ (α : Type) (body : CacheDB → Except Exc (α × List Row)),
      (session_scope db body).closed = true ∧
      (∀ a, (session_scope db body).result = .ok a →
        (session_scope db body).committed = true ∧
        (session_scope db body).rolledBack = false) ∧
      (∀ e, (session_scope db body).result = .error e →
        (session_scope db body).rolledBack = true ∧
        (session_scope db body).committed = false ∧
        (session_scope db body).db = db ∧
        (body db = .error e ∨
          ∃ a added, body db = .ok (a, added) ∧ commitAdded db added = .error e))) := by
  refine ⟨rfl, rfl, fun α body => ?_⟩
  cases hb : body db with
  | error e =>
      refine ⟨by simp [session_scope, hb], ?_, ?_⟩
      · intro a ha
        simp [session_scope, hb] at ha
      · intro e2 he
        have he2 : e = e2 := by
          simpa [session_scope, hb] using he
        exact ⟨by simp [session_scope, hb], by simp [session_scope, hb],
               by simp [session_scope, hb], Or.inl (congrArg Except.error he2)⟩
  | ok p =>
      obtain ⟨a, added⟩ := p
      cases hc : commitAdded db added with
      | ok db2 =>
          refine ⟨by simp [session_scope, hb, hc], ?_, ?_⟩
          · intro a2 _
            simp [session_scope, hb, hc]
          · intro e2 he
            simp [session_scope, hb, hc] at he
      | error e =>
          refine ⟨by simp [session_scope, hb, hc], ?_, ?_⟩
          · intro a2 ha
            simp [session_scope, hb, hc] at ha
          · intro e2 he
            have he2 : e = e2 := by
              simpa [session_scope, hb, hc] using he
            exact ⟨by simp [session_scope, hb, hc], by simp [session_scope, hb, hc],
                   by simp [session_scope, hb, hc],
                   Or.inr ⟨a, added, rfl, hc.trans (congrArg Except.error he2)⟩⟩

/-- C8 witness: a concrete put whose commit fails (duplicate key), applied
through the scoped-transaction theorem. -/
theorem c8_scoped_transactions_witness :
    CacheManager.put [⟨"k", "address", .num 1⟩] "k" (.num 2) "transaction"
      = session_scope [⟨"k", "address", .num 1⟩] (putBody "k" (.num 2) "transaction") ∧
    CacheManager.get [⟨"k", "address", .num 1⟩] "k" "transaction"
      = session_scope [⟨"k", "address", .num 1⟩] (getBody "k" "transaction") ∧
    (session_scope [⟨"k", "address", .num 1⟩] (putBody "k" (.num 2) "transaction")).closed
      = true ∧
    (session_scope [⟨"k", "address", .num 1⟩] (putBody "k" (.num 2) "transaction")).rolledBack
      = true ∧
    (session_scope [⟨"k", "address", .num 1⟩] (putBody "k" (.num 2) "transaction")).committed
      = false ∧
    (session_scope [⟨"k", "address", .num 1⟩] (putBody "k" (.num 2) "transaction")).db
      = [⟨"k", "address", .num 1⟩] := by
  have h := c8_scoped_transactions [⟨"k", "address", .num 1⟩] "k" "transaction" (.num 2)
  have herr := h.2.2 Unit (putBody "k" (.num 2) "transaction")
  have hres : (session_scope [⟨"k", "address", .num 1⟩]
      (putBody "k" (.num 2) "transaction")).result = .error .integrityError := rfl
  obtain ⟨hclosed, _, hroll⟩ := herr
  obtain ⟨h1, h2, h3, _⟩ := hroll .integrityError hres
  exact ⟨h.1, h.2.1, hclosed, h1, h2, h3⟩

/-- C9 counterexample: with the client's address budget exhausted, the
lookup is rejected with `TooManyRequests` — but `server.py` surfaces that
exception through its catch-all `Exception` handler as HTTP 500, not 429,
since no handler for code 429 is registered. -/
theorem c9_counterexample :
    (AddressService.get (fun _ => .transport) "E"
        ⟨[], some (List.replicate 10 ⟨"c", "address", 0⟩)⟩ "c" 0 ["1A1z"]).1
      = .error .tooManyRequests ∧
    surfaceStatus .tooManyRequests = 500 ∧
    (500 : Nat) ≠ 429 := by
  refine ⟨?_, rfl, by decide⟩
  have h10 : ¬ hitCount (List.replicate 10 ⟨"c", "address", 0⟩) "c" "address" 60 0 < 10 := by
    decide
  rw [addressGet_rejected (fun _ => .transport) "E" []
    (List.replicate 10 ⟨"c", "address", 0⟩) "c" 0 ["1A1z"] h10]

/-- C9 as amended: the decorators configure 10 admissions per 60-second
window for address lookups and 5 per 60-second window for transaction
lookups, per client; from a fresh window, N acquisitions by the same client
for the same operation are all admitted, the (N+1)-th in the same window is
rejected — a service call in that state raises TooManyRequests, which the
server surfaces as HTTP 500 (its catch-all Exception handler intercepts the
429 exception, no 429 handler being registered) — while an acquisition
after the window elapses is admitted again. -/
theorem c9_quota_windows (client : String) (t : Nat) :
    parseLimit addressLimitString = some (10, 60) ∧
    parseLimit transactionLimitString = some (5, 60) ∧
    surfaceStatus .tooManyRequests = 500 ∧
    (acquireTimes client "address" 10 60 t 10 []).2 = List.replicate 10 true ∧
    tryAcquire (acquireTimes client "address" 10 60 t 10 []).1 client "address" 10 60 t
      = (false, (acquireTimes client "address" 10 60 t 10 []).1) ∧
    (tryAcquire (acquireTimes client "address" 10 60 t 10 []).1 client "address" 10 60
        (t + 60)).1 = true ∧
    (∀ (env : Env) (endpoint : String) (db : CacheDB) (args : List String),
      (AddressService.get env endpoint
          ⟨db, some (acquireTimes client "address" 10 60 t 10 []).1⟩ client t args).1
        = .error .tooManyRequests) ∧
    (acquireTimes client "txhash" 5 60 t 5 []).2 = List.replicate 5 true ∧
    tryAcquire (acquireTimes client "txhash" 5 60 t 5 []).1 client "txhash" 5 60 t
      = (false, (acquireTimes client "txhash" 5 60 t 5 []).1) ∧
    (tryAcquire (acquireTimes client "txhash" 5 60 t 5 []).1 client "txhash" 5 60
        (t + 60)).1 = true ∧
    (∀ (env : Env) (endpoint : String) (db : CacheDB) (args : List String),
      (TransactionService.get env endpoint
          ⟨db, some (acquireTimes client "txhash" 5 60 t 5 []).1⟩ client t args).1
        = .error .tooManyRequests) := by
  have hrunA := acquireTimes_granted client "address" 10 60 t 10 [] (by simp [hitCount])
  rw [List.append_nil] at hrunA
  have hcA : hitCount (List.replicate 10 ⟨client, "address", t⟩) client "address" 60 t
      = 10 := by
    have h2 := hitCount_replicate_append client "address" 60 t 10 []
    rw [List.append_nil, hitCount_nil] at h2
    omega
  have hrunT := acquireTimes_granted client "txhash" 5 60 t 5 [] (by simp [hitCount])
  rw [List.append_nil] at hrunT
  have hcT : hitCount (List.replicate 5 ⟨client, "txhash", t⟩) client "txhash" 60 t
      = 5 := by
    have h2 := hitCount_replicate_append client "txhash" 60 t 5 []
    rw [List.append_nil, hitCount_nil] at h2
    omega
  refine ⟨rfl, rfl, rfl, by rw [hrunA], ?_, ?_, ?_, by rw [hrunT], ?_, ?_, ?_⟩
  · rw [hrunA]
    show tryAcquire (List.replicate 10 ⟨client, "address", t⟩) client "address" 10 60 t
        = (false, List.replicate 10 ⟨client, "address", t⟩)
    unfold tryAcquire
    rw [hcA]
    simp
  · rw [hrunA]
    show (tryAcquire (List.replicate 10 ⟨client, "address", t⟩) client "address" 10 60
        (t + 60)).1 = true
    unfold tryAcquire
    rw [hitCount_other_window client "address" 10 t]
    simp
  · intro env endpoint db args
    rw [hrunA]
    rw [addressGet_rejected env endpoint db
      (List.replicate 10 ⟨client, "address", t⟩) client t args (by rw [hcA]; omega)]
  · rw [hrunT]
    show tryAcquire (List.replicate 5 ⟨client, "txhash", t⟩) client "txhash" 5 60 t
        = (false, List.replicate 5 ⟨client, "txhash", t⟩)
    unfold tryAcquire
    rw [hcT]
    simp
  · rw [hrunT]
    show (tryAcquire (List.replicate 5 ⟨client, "txhash", t⟩) client "txhash" 5 60
        (t + 60)).1 = true
    unfold tryAcquire
    rw [hitCount_other_window client "txhash" 5 t]
    simp
  · intro env endpoint db args
    rw [hrunT]
    rw [txGet_rejected env endpoint db
      (List.replicate 5 ⟨client, "txhash", t⟩) client t args (by rw [hcT]; omega)]

end BlockchainQuery
